import Mathlib

/-!
Verification of the cocktail-mixing engine (`src/modules/CocktailSystem.ts`).

The engine's numeric state (ingredient amounts, volumes, tick time deltas) is
embedded as exact rationals `ℚ`; packed RGB colors are naturals `< 0x1000000`.
Babylon.js scene objects (meshes, particle systems, materials), DOM/UI updates
and console logging are presentation-only side effects that never feed back
into the engine's content state, so they are omitted from the embedding.
The camera aiming context of `pour` is abstracted to the two derived scalars
the code branches on (spatial distance between bottle and target, and the
normalized view-direction dot product), since the vector algebra producing
them lives in the external Babylon.js library.
-/

namespace CocktailSystem

/-- One entry of `ContainerContents.ingredients` (CocktailSystem.ts lines 10-17):
liquor type key, Chinese name, display name, current amount (ml), base color. -/
structure Ingredient where
  type : String
  name : String
  displayName : String
  amount : ℚ
  color : ℕ
deriving DecidableEq, Repr

/-- Per-vessel content record (CocktailSystem.ts `ContainerContents`, minus the
`liquidMesh` handle which is pure rendering state). -/
structure ContainerContents where
  ingredients : List Ingredient
  volume : ℚ
  maxVolume : ℚ
  color : ℕ
deriving DecidableEq, Repr

/-- Liquor catalog categories (types.ts `LiquorCategory`). -/
inductive LiquorCategory where
  | baseSpirit | liqueur | juice | mixer | syrup | bitters
deriving DecidableEq, Repr

/-- Catalog entry (types.ts `LiquorData`). -/
structure LiquorData where
  name : String
  displayName : String
  color : ℕ
  alcoholContent : ℚ
  category : LiquorCategory
deriving DecidableEq, Repr

/-- The static liquor catalog built by `initLiquorDatabase`
(CocktailSystem.ts lines 115-365), as a lookup function. -/
def liquorDatabase : String → Option LiquorData
  | "vodka" => some ⟨"伏特加", "Vodka", 0xf0f0f0, 40, .baseSpirit⟩
  | "gin" => some ⟨"琴酒", "Gin", 0xe8f4f8, 40, .baseSpirit⟩
  | "rum" => some ⟨"蘭姆酒", "Rum", 0xd4a574, 40, .baseSpirit⟩
  | "whiskey" => some ⟨"威士忌", "Whiskey", 0xb87333, 40, .baseSpirit⟩
  | "tequila" => some ⟨"龍舌蘭", "Tequila", 0xf5deb3, 40, .baseSpirit⟩
  | "brandy" => some ⟨"白蘭地", "Brandy", 0x8b4513, 40, .baseSpirit⟩
  | "lemon_juice" => some ⟨"檸檬汁", "Lemon Juice", 0xfff44f, 0, .mixer⟩
  | "lime_juice" => some ⟨"萊姆汁", "Lime Juice", 0x32cd32, 0, .mixer⟩
  | "simple_syrup" => some ⟨"糖漿", "Simple Syrup", 0xffe4b5, 0, .syrup⟩
  | "grenadine" => some ⟨"紅石榴糖漿", "Grenadine", 0xff0000, 0, .syrup⟩
  | "angostura_bitters" => some ⟨"安格仕苦精", "Angostura Bitters", 0x8b0000, 447/10, .bitters⟩
  | "orange_juice" => some ⟨"柳橙汁", "Orange Juice", 0xffa500, 0, .juice⟩
  | "pineapple_juice" => some ⟨"鳳梨汁", "Pineapple Juice", 0xffeb3b, 0, .juice⟩
  | "cranberry_juice" => some ⟨"蔓越莓汁", "Cranberry Juice", 0xdc143c, 0, .juice⟩
  | "tomato_juice" => some ⟨"番茄汁", "Tomato Juice", 0xff6347, 0, .juice⟩
  | "grapefruit_juice" => some ⟨"葡萄柚汁", "Grapefruit Juice", 0xff69b4, 0, .juice⟩
  | "soda_water" => some ⟨"蘇打水", "Soda Water", 0xe0ffff, 0, .mixer⟩
  | "tonic_water" => some ⟨"通寧水", "Tonic Water", 0xf0ffff, 0, .mixer⟩
  | "cola" => some ⟨"可樂", "Cola", 0x3e2723, 0, .mixer⟩
  | "liqueur" => some ⟨"利口酒", "Liqueur", 0xff6b9d, 20, .liqueur⟩
  | "vermouth_dry" => some ⟨"不甜香艾酒", "Dry Vermouth", 0xe8e8d0, 18, .liqueur⟩
  | "vermouth_sweet" => some ⟨"甜香艾酒", "Sweet Vermouth", 0x8b4513, 18, .liqueur⟩
  | "campari" => some ⟨"金巴利", "Campari", 0xdc143c, 25, .liqueur⟩
  | "triple_sec" => some ⟨"橙皮酒", "Triple Sec", 0xffa500, 40, .liqueur⟩
  | "coconut_cream" => some ⟨"椰漿", "Coconut Cream", 0xfffaf0, 0, .mixer⟩
  | "coffee_liqueur" => some ⟨"咖啡利口酒", "Coffee Liqueur", 0x3e2723, 20, .liqueur⟩
  | "amaretto" => some ⟨"杏仁利口酒", "Amaretto", 0xd2691e, 28, .liqueur⟩
  | "baileys" => some ⟨"貝禮詩奶酒", "Baileys", 0xd2b48c, 17, .liqueur⟩
  | "blue_curacao" => some ⟨"藍柑橘酒", "Blue Curaçao", 0x0000ff, 21, .liqueur⟩
  | "peach_schnapps" => some ⟨"水蜜桃酒", "Peach Schnapps", 0xffdab9, 20, .liqueur⟩
  | _ => none

/-- Pour rate in ml/second (`this.pourRate = 30`, line 109). -/
def pourRate : ℚ := 30

/-- Extract one 8-bit channel of a packed `0xRRGGBB` color
(`BABYLON.Color3.FromHexString` reads the byte at the given bit offset;
the channel intensity is this value divided by 255). -/
def hexChannel (c : ℕ) (shift : ℕ) : ℕ := c / 2 ^ shift % 256

/-- Sum of current ingredient amounts of a list. -/
def totalAmount (ings : List Ingredient) : ℚ := (ings.map (·.amount)).sum

/-- `Σ channelᵢ/255 · amountᵢ` accumulated by the `forEach` loop of
`updateMixedColor` (lines 867-875) for one channel. -/
def weightedChannelSum (ings : List Ingredient) (shift : ℕ) : ℚ :=
  (ings.map (fun i => ((hexChannel i.color shift : ℚ) / 255) * i.amount)).sum

/-- JavaScript `Math.round` on an exact rational: `⌊x + 1/2⌋`. -/
def jsRound (q : ℚ) : ℤ := ⌊q + 1/2⌋

/-- One channel of the blended color: the weighted channel average scaled back
to 0-255 and rounded, as done by `Color3.toHexString` when `updateMixedColor`
re-packs the mixed color (line 883). -/
def mixChannel (ings : List Ingredient) (shift : ℕ) : ℤ :=
  jsRound (weightedChannelSum ings shift / totalAmount ings * 255)

/-- `updateMixedColor` (lines 859-885): volume-weighted average of the
ingredient base colors, recomputed channel-wise; a container with no
ingredients, or with non-positive total amount, keeps its previous color. -/
def updateMixedColor (c : ContainerContents) : ContainerContents :=
  if c.ingredients.isEmpty then c
  else if 0 < totalAmount c.ingredients then
    { c with color := (mixChannel c.ingredients 16).toNat * 65536
        + (mixChannel c.ingredients 8).toNat * 256
        + (mixChannel c.ingredients 0).toNat }
  else c

/-- The coalescing add used by `pour` (lines 524-536) and the target half of
`pourFromShaker` (lines 637-651): bump the first entry with the same `type`,
else append a new entry at the end. -/
def addAmount : List Ingredient → Ingredient → List Ingredient
  | [], newIng => [newIng]
  | i :: rest, newIng =>
      if i.type = newIng.type then { i with amount := i.amount + newIng.amount } :: rest
      else i :: addAmount rest newIng

/-- Derived aiming scalars of `pour` (lines 491-515): distance between the
bottle and the target container, and the dot product of the camera forward
direction with the normalized camera-to-glass vector. -/
structure AimContext where
  distance : ℚ
  dotProduct : ℚ
deriving DecidableEq, Repr

/-- The two early-return aim gates of `pour`: reject when distance > 1.5
(line 498) or when the dot product < 0.85 (line 512). -/
def aimRejected : Option AimContext → Bool
  | none => false
  | some a => decide (3/2 < a.distance) || decide (a.dotProduct < 17/20)

/-- Engine-level pour-session fields relevant to content state
(`isPouringActive`, `currentPouringAmount`); the remaining session fields
(held bottle handle, saved rotation, UI hide timer) are presentation only. -/
structure PourState where
  isPouringActive : Bool
  currentPouringAmount : ℚ
deriving DecidableEq, Repr

/-- Session bookkeeping done at the end of a successful pour tick
(lines 550-565): on a fresh session the active flag is raised and the
cumulative amount reset, then the tick's amount is accumulated. -/
def pourSessionTick (ps : PourState) (amount : ℚ) : PourState :=
  let ps1 := if ps.isPouringActive then ps else ⟨true, 0⟩
  { ps1 with currentPouringAmount := ps1.currentPouringAmount + amount }

/-- `pour` (lines 474-575): pour `liquorType` from a bottle into a registered
target container for one tick of `deltaTime` seconds. Early returns: target
already full (line 485), aim rejection when a camera is supplied
(lines 491-515). Otherwise `pourRate · deltaTime` is added (coalescing by
type) with no clamping, the volume incremented, the blended color recomputed,
and the pour session ticked. An unknown `liquorType` leaves everything
unchanged (the whole mutation block is guarded by the catalog lookup,
line 522). -/
def pour (target : ContainerContents) (ps : PourState) (liquorType : String)
    (deltaTime : ℚ) (aim : Option AimContext) : ContainerContents × PourState :=
  if target.maxVolume ≤ target.volume then (target, ps)
  else if aimRejected aim then (target, ps)
  else
    let amountPoured := pourRate * deltaTime
    match liquorDatabase liquorType with
    | none => (target, ps)
    | some liquor =>
        let ings := addAmount target.ingredients
          ⟨liquorType, liquor.name, liquor.displayName, amountPoured, liquor.color⟩
        let target1 : ContainerContents :=
          { ingredients := ings
            volume := target.volume + amountPoured
            maxVolume := target.maxVolume
            color := target.color }
        (updateMixedColor target1, pourSessionTick ps amountPoured)

/-- `pourFromShaker` (lines 609-695): transfer from a source vessel into a
target vessel for one tick. No-ops when the source is empty or the target
full; otherwise moves `min(pourRate·Δt, sourceVolume, remainingCapacity)`,
drawing proportionally from every source ingredient, then prunes source
entries with amount ≤ 0.01 and recomputes both blended colors. The session
bookkeeping of lines 669-694 repeats `pour`'s and touches no container
field, so the embedding returns the two container states. -/
def pourFromShaker (shaker target : ContainerContents) (deltaTime : ℚ) :
    ContainerContents × ContainerContents :=
  if shaker.volume ≤ 0 then (shaker, target)
  else if target.maxVolume ≤ target.volume then (shaker, target)
  else
    let amountToPour := min (min (pourRate * deltaTime) shaker.volume)
      (target.maxVolume - target.volume)
    let ratio := amountToPour / shaker.volume
    let targetIngs := shaker.ingredients.foldl
      (fun acc ing => addAmount acc { ing with amount := ing.amount * ratio })
      target.ingredients
    let shakerIngs := (shaker.ingredients.map
      (fun ing => { ing with amount := ing.amount - ing.amount * ratio })).filter
      (fun ing => 1/100 < ing.amount)
    let shaker1 : ContainerContents :=
      { ingredients := shakerIngs
        volume := shaker.volume - amountToPour
        maxVolume := shaker.maxVolume
        color := shaker.color }
    let target1 : ContainerContents :=
      { ingredients := targetIngs
        volume := target.volume + amountToPour
        maxVolume := target.maxVolume
        color := target.color }
    (updateMixedColor shaker1, updateMixedColor target1)

/-- `getAmount` helper of `identifyCocktail` (lines 990-993): amount of the
first entry of the given type, `0` when absent. -/
def getAmount (ings : List Ingredient) (t : String) : ℚ :=
  match ings.find? (fun i => i.type = t) with
  | some i => i.amount
  | none => 0

/-- Martini rule (lines 998-1018): gin and dry vermouth present, no other base
spirit or campari, no fruit juice, only lemon/lime/syrup extras, and
gin/vermouth ratio in [2, 3]. The outer presence test and the inner
ratio/exclusion test are conjoined, matching the code's fall-through on an
inner failure. -/
def martiniMatch (ings : List Ingredient) (types : List String) : Bool :=
  types.contains "gin" && types.contains "vermouth_dry" &&
  (let ratio := getAmount ings "gin" / getAmount ings "vermouth_dry"
   let hasOtherSpirits := types.any (fun t =>
     (["vodka", "rum", "whiskey", "tequila", "brandy", "campari"]).contains t)
   let hasJuice := types.any (fun t =>
     (["orange_juice", "cranberry_juice", "pineapple_juice", "tomato_juice",
       "grapefruit_juice"]).contains t)
   let hasOnlyAllowedExtras := (types.filter (fun t =>
     t ≠ "gin" && t ≠ "vermouth_dry")).all (fun t =>
       (["lemon_juice", "lime_juice", "simple_syrup"]).contains t)
   !hasOtherSpirits && !hasJuice && hasOnlyAllowedExtras &&
     decide (2 ≤ ratio) && decide (ratio ≤ 3))

/-- Vodka Martini rule (lines 1021-1033): vodka and dry vermouth, no other
base spirit or campari, ratio in [2, 3]. -/
def vodkaMartiniMatch (ings : List Ingredient) (types : List String) : Bool :=
  types.contains "vodka" && types.contains "vermouth_dry" &&
  (let ratio := getAmount ings "vodka" / getAmount ings "vermouth_dry"
   let hasOtherSpirits := types.any (fun t =>
     (["gin", "rum", "whiskey", "tequila", "brandy", "campari"]).contains t)
   !hasOtherSpirits && decide (2 ≤ ratio) && decide (ratio ≤ 3))

/-- Negroni rule (lines 1036-1050): gin, campari and sweet vermouth present,
each amount within 30% of the three-way average. -/
def negroniMatch (ings : List Ingredient) (types : List String) : Bool :=
  types.contains "gin" && types.contains "campari" &&
  types.contains "vermouth_sweet" &&
  (let g := getAmount ings "gin"
   let ca := getAmount ings "campari"
   let v := getAmount ings "vermouth_sweet"
   let avg := (g + ca + v) / 3
   decide (|g - avg| / avg < 3/10) && decide (|ca - avg| / avg < 3/10) &&
     decide (|v - avg| / avg < 3/10))

/-- `identifyCocktail` (lines 985-1130): the ordered first-match-wins cascade
of named recipe rules in source order, followed by the generic fallbacks. -/
def identifyCocktail (c : ContainerContents) : String :=
  let ings := c.ingredients
  let types := ings.map (·.type)
  if martiniMatch ings types then "馬丁尼 (Martini)"
  else if vodkaMartiniMatch ings types then "伏特加馬丁尼 (Vodka Martini)"
  else if negroniMatch ings types then "內格羅尼 (Negroni)"
  else if types.contains "tequila" && types.contains "triple_sec" &&
      types.contains "lime_juice" then "瑪格麗特 (Margarita)"
  else if types.contains "rum" && types.contains "lime_juice" &&
      types.contains "simple_syrup" then "黛克瑞 (Daiquiri)"
  else if types.contains "rum" && types.contains "pineapple_juice" &&
      types.contains "coconut_cream" then "椰林風情 (Piña Colada)"
  else if types.contains "vodka" && types.contains "triple_sec" &&
      types.contains "cranberry_juice" && types.contains "lime_juice" then
    "柯夢波丹 (Cosmopolitan)"
  else if types.contains "rum" && types.contains "lime_juice" &&
      types.contains "simple_syrup" then "莫希托 (Mojito)"
  else if types.contains "whiskey" && types.contains "vermouth_sweet" then
    "曼哈頓 (Manhattan)"
  else if types.contains "whiskey" && types.contains "lemon_juice" &&
      types.contains "simple_syrup" then "威士忌酸酒 (Whiskey Sour)"
  else if types.contains "vodka" && types.contains "tomato_juice" then
    "血腥瑪麗 (Bloody Mary)"
  else if types.contains "vodka" && types.contains "orange_juice" &&
      types.length == 2 then "螺絲起子 (Screwdriver)"
  else if types.contains "tequila" && types.contains "orange_juice" &&
      types.contains "grenadine" then "龍舌蘭日出 (Tequila Sunrise)"
  else if types.contains "rum" && types.contains "triple_sec" &&
      types.contains "lime_juice" then "邁泰 (Mai Tai)"
  else if types.contains "vodka" && types.contains "rum" &&
      types.contains "gin" && types.contains "tequila" &&
      types.contains "triple_sec" then "長島冰茶 (Long Island Iced Tea)"
  else if types.contains "vodka" && types.length == 1 then "伏特加純飲"
  else if types.contains "gin" && types.length == 1 then "琴酒純飲"
  else if types.contains "rum" && types.contains "liqueur" then "熱帶雞尾酒"
  else if types.contains "vodka" && types.contains "liqueur" then "性感海灘"
  else if 2 < types.length then "特調混酒"
  else if types.length == 2 then "雙料調酒"
  else "未知飲品"

/-- Disjunction of every named-output rule guard of `identifyCocktail`, in
source order: the fifteen classic-recipe guards (lines 998-1112) plus the
named two-ingredient combos 熱帶雞尾酒 and 性感海灘 (lines 1119-1122).
`namedRuleMatch = false` states "no named recipe rule matches", the premise
of the generic count-based fallback. -/
def namedRuleMatch (ings : List Ingredient) (types : List String) : Bool :=
  martiniMatch ings types || vodkaMartiniMatch ings types || negroniMatch ings types ||
  (types.contains "tequila" && types.contains "triple_sec" &&
    types.contains "lime_juice") ||
  (types.contains "rum" && types.contains "lime_juice" &&
    types.contains "simple_syrup") ||
  (types.contains "rum" && types.contains "pineapple_juice" &&
    types.contains "coconut_cream") ||
  (types.contains "vodka" && types.contains "triple_sec" &&
    types.contains "cranberry_juice" && types.contains "lime_juice") ||
  (types.contains "rum" && types.contains "lime_juice" &&
    types.contains "simple_syrup") ||
  (types.contains "whiskey" && types.contains "vermouth_sweet") ||
  (types.contains "whiskey" && types.contains "lemon_juice" &&
    types.contains "simple_syrup") ||
  (types.contains "vodka" && types.contains "tomato_juice") ||
  (types.contains "vodka" && types.contains "orange_juice" &&
    types.length == 2) ||
  (types.contains "tequila" && types.contains "orange_juice" &&
    types.contains "grenadine") ||
  (types.contains "rum" && types.contains "triple_sec" &&
    types.contains "lime_juice") ||
  (types.contains "vodka" && types.contains "rum" && types.contains "gin" &&
    types.contains "tequila" && types.contains "triple_sec") ||
  (types.contains "rum" && types.contains "liqueur") ||
  (types.contains "vodka" && types.contains "liqueur")

/-- `emptyContainer` (lines 1135-1144): clear all ingredients, reset volume
to 0 and color to the neutral white. -/
def emptyContainer (c : ContainerContents) : ContainerContents :=
  { c with ingredients := [], volume := 0, color := 0xffffff }

/-- The drink-result snapshot captured before a vessel is emptied
(lines 907-912 / 960-965). -/
structure DrinkInfo where
  volume : ℚ
  ingredients : List Ingredient
  color : ℕ
  name : String
deriving DecidableEq, Repr

/-- Engine drinking-animation state: the active flag, the captured start
timestamp (milliseconds, as `Date.now()`), and the single-slot last-drink
mailbox. The held glass handle and its saved position drive only the
presentational position/rotation interpolation. -/
structure DrinkState where
  isDrinking : Bool
  drinkingStartTime : ℚ
  lastDrinkInfo : Option DrinkInfo
deriving DecidableEq, Repr

/-- `drink` (lines 890-924) applied to the contents of the requested glass at
current time `now` (ms). An empty glass: no-op returning `none`. With
`startAnimation` and no drink in progress: record the start of the animation,
contents untouched, return `none`. Otherwise (the immediate path): snapshot,
clear the glass and return the snapshot directly (this path does not fill the
`lastDrinkInfo` slot). -/
def drink (c : ContainerContents) (ds : DrinkState) (now : ℚ)
    (startAnimation : Bool) : ContainerContents × DrinkState × Option DrinkInfo :=
  if c.volume = 0 then (c, ds, none)
  else if startAnimation && !ds.isDrinking then
    (c, { ds with isDrinking := true, drinkingStartTime := now }, none)
  else
    let info : DrinkInfo := ⟨c.volume, c.ingredients, c.color, identifyCocktail c⟩
    ({ c with ingredients := [], volume := 0, color := 0xffffff }, ds, some info)

/-- `updateDrinkingAnimation` (lines 938-980), called from the per-frame
`update`, applied to the contents of the drinking glass at current time `now`
(ms). Below 1 second of elapsed time only the glass pose is animated; once
elapsed time reaches 1 second the non-empty glass is snapshotted, cleared and
the snapshot stored in the single-slot mailbox, and the animation ends. -/
def updateDrinkingAnimation (c : ContainerContents) (ds : DrinkState)
    (now : ℚ) : ContainerContents × DrinkState :=
  if !ds.isDrinking then (c, ds)
  else
    let elapsedTime := (now - ds.drinkingStartTime) / 1000
    if elapsedTime < 1 then (c, ds)
    else if 0 < c.volume then
      let info : DrinkInfo := ⟨c.volume, c.ingredients, c.color, identifyCocktail c⟩
      ({ c with ingredients := [], volume := 0, color := 0xffffff },
       { ds with isDrinking := false, lastDrinkInfo := some info })
    else (c, { ds with isDrinking := false })

/-- `getLastDrinkInfo` (lines 929-933): read and clear the single-slot
last-drink mailbox. -/
def getLastDrinkInfo (ds : DrinkState) : Option DrinkInfo × DrinkState :=
  (ds.lastDrinkInfo, { ds with lastDrinkInfo := none })

/-- The volume/ingredient-sum coherence invariant of a container. -/
def volOk (c : ContainerContents) : Prop := c.volume = totalAmount c.ingredients

/-! ### Concrete fixtures used by the scenario theorems -/

/-- A 300 ml vessel already holding 290 ml of vodka. -/
def vodkaGlass290 : ContainerContents :=
  ⟨[⟨"vodka", "伏特加", "Vodka", 290, 0xf0f0f0⟩], 290, 300, 0xf0f0f0⟩

/-- A 500 ml shaker holding ingredient A = 300 ml and B = 200 ml. -/
def shakerAB : ContainerContents :=
  ⟨[⟨"A", "A", "A", 300, 0xff0000⟩, ⟨"B", "B", "B", 200, 0x0000ff⟩], 500, 500, 0x990066⟩

/-- An empty 300 ml glass. -/
def glass300 : ContainerContents := ⟨[], 0, 300, 0xffffff⟩

/-- A 500 ml shaker holding a single 10 ml ingredient. -/
def shakerTiny : ContainerContents := ⟨[⟨"A", "A", "A", 10, 0xff0000⟩], 10, 500, 0xff0000⟩

/-- An empty 1000 ml vessel. -/
def glassBig : ContainerContents := ⟨[], 0, 1000, 0xffffff⟩

/-- A glass holding `g` ml of gin and `v` ml of dry vermouth and nothing else. -/
def ginVermouthGlass (g v : ℚ) : ContainerContents :=
  ⟨[⟨"gin", "琴酒", "Gin", g, 0xe8f4f8⟩,
    ⟨"vermouth_dry", "不甜香艾酒", "Dry Vermouth", v, 0xe8e8d0⟩], g + v, 300, 0xffffff⟩

/-- A glass holding only 50 ml of rum. -/
def rumOnlyGlass : ContainerContents :=
  ⟨[⟨"rum", "蘭姆酒", "Rum", 50, 0xd4a574⟩], 50, 300, 0xd4a574⟩

/-- A glass holding the five Long Island Iced Tea spirits plus lime juice,
15 ml each: it satisfies both the Long Island Iced Tea ingredient pattern and
the Mai Tai ingredient pattern. -/
def sixSpiritMix : ContainerContents :=
  ⟨[⟨"vodka", "伏特加", "Vodka", 15, 0xf0f0f0⟩,
    ⟨"rum", "蘭姆酒", "Rum", 15, 0xd4a574⟩,
    ⟨"gin", "琴酒", "Gin", 15, 0xe8f4f8⟩,
    ⟨"tequila", "龍舌蘭", "Tequila", 15, 0xf5deb3⟩,
    ⟨"triple_sec", "橙皮酒", "Triple Sec", 15, 0xffa500⟩,
    ⟨"lime_juice", "萊姆汁", "Lime Juice", 15, 0x32cd32⟩], 90, 300, 0xcccccc⟩

/-- A glass holding 100 ml of rum, used for the drink-cycle scenario. -/
def rumGlass100 : ContainerContents :=
  ⟨[⟨"rum", "蘭姆酒", "Rum", 100, 0xd4a574⟩], 100, 300, 0xd4a574⟩

/-- A 300 ml glass holding whiskey and cola, matching no named recipe rule. -/
def whiskeyColaGlass : ContainerContents :=
  ⟨[⟨"whiskey", "威士忌", "Whiskey", 45, 0xb87333⟩,
    ⟨"cola", "可樂", "Cola", 120, 0x3e2723⟩], 165, 300, 0x553322⟩

/-- A glass holding three mixers matching no named recipe rule. -/
def mixerTrioGlass : ContainerContents :=
  ⟨[⟨"cola", "可樂", "Cola", 60, 0x3e2723⟩,
    ⟨"soda_water", "蘇打水", "Soda Water", 60, 0xe0ffff⟩,
    ⟨"lemon_juice", "檸檬汁", "Lemon Juice", 20, 0xfff44f⟩], 140, 300, 0x888888⟩

/-- A mixed two-ingredient container for the color-bounds witness. -/
def redBlueGlass : ContainerContents :=
  ⟨[⟨"grenadine", "紅石榴糖漿", "Grenadine", 1, 0xff0000⟩,
    ⟨"blue_curacao", "藍柑橘酒", "Blue Curaçao", 3, 0x0000ff⟩], 4, 300, 0xffffff⟩

/-! ### Helper lemmas -/

/-- `updateMixedColor` only rewrites the cached color field. -/
theorem updateMixedColor_ingredients (c : ContainerContents) :
    (updateMixedColor c).ingredients = c.ingredients := by
  unfold updateMixedColor; split_ifs <;> rfl

/-- `updateMixedColor` leaves the volume untouched. -/
theorem updateMixedColor_volume (c : ContainerContents) :
    (updateMixedColor c).volume = c.volume := by
  unfold updateMixedColor; split_ifs <;> rfl

/-- The coalescing add increases the amount sum by exactly the added amount. -/
theorem totalAmount_addAmount (l : List Ingredient) (ing : Ingredient) :
    totalAmount (addAmount l ing) = totalAmount l + ing.amount := by
  induction l with
  | nil => simp [addAmount, totalAmount]
  | cons i rest ih =>
      by_cases h : i.type = ing.type
      · simp [addAmount, h, totalAmount]; ring
      · simp [addAmount, h, totalAmount] at *; rw [ih]; ring

/-- Folding the proportional transfer into a target list adds
`(Σ source amounts) · ratio` to its amount sum. -/
theorem totalAmount_foldl_transfer (src : List Ingredient) (r : ℚ) :
    ∀ acc : List Ingredient,
      totalAmount (src.foldl
        (fun a ing => addAmount a { ing with amount := ing.amount * r }) acc)
        = totalAmount acc + totalAmount src * r := by
  induction src with
  | nil => intro acc; simp [totalAmount]
  | cons i rest ih =>
      intro acc
      simp only [List.foldl_cons]
      rw [ih, totalAmount_addAmount]
      simp [totalAmount]; ring

/-- A single string cannot equal two distinct string literals, so a
singleton ingredient list can never satisfy a rule requiring two distinct
ingredient types. -/
theorem pairEqFalse (t a b : String) (h : a ≠ b) : (a = t ∧ b = t) = False := by
  simp only [eq_iff_iff, iff_false]
  rintro ⟨rfl, rfl⟩
  exact h rfl

/-- Filtering a list of nonnegative amounts can only decrease the sum. -/
theorem totalAmount_filter_le (l : List Ingredient) (p : Ingredient → Bool)
    (hnn : ∀ i ∈ l, 0 ≤ i.amount) :
    totalAmount (l.filter p) ≤ totalAmount l := by
  induction l with
  | nil => simp [totalAmount]
  | cons i rest ih =>
      have hi := hnn i (List.mem_cons_self i rest)
      have ih' := ih (fun j hj => hnn j (List.mem_cons_of_mem i hj))
      by_cases h : p i
      · simp only [List.filter_cons, h, if_true, totalAmount, List.map_cons,
          List.sum_cons]
        simp only [totalAmount] at ih'
        linarith
      · simp only [List.filter_cons, h, if_false, Bool.false_eq_true, totalAmount,
          List.map_cons, List.sum_cons]
        simp only [totalAmount] at ih'
        linarith

/-- Proportional scaling of every amount scales the amount sum. -/
theorem totalAmount_map_scale (l : List Ingredient) (r : ℚ) :
    totalAmount (l.map (fun ing => { ing with amount := ing.amount - ing.amount * r }))
      = totalAmount l - totalAmount l * r := by
  induction l with
  | nil => simp [totalAmount]
  | cons i rest ih =>
      simp only [List.map_cons, totalAmount, List.sum_cons] at *
      rw [ih]; ring

/-- An extracted 8-bit channel is below 256. -/
theorem hexChannel_lt (c sh : ℕ) : hexChannel c sh < 256 :=
  Nat.mod_lt _ (by norm_num)

/-- `Math.round` is monotone. -/
theorem jsRound_le_jsRound (x y : ℚ) (h : x ≤ y) : jsRound x ≤ jsRound y :=
  Int.floor_le_floor (by linarith)

/-- `Math.round` fixes integers. -/
theorem jsRound_intCast (n : ℤ) : jsRound (n : ℚ) = n := by
  unfold jsRound
  rw [Int.floor_int_add]
  norm_num

/-- Upper bound on the weighted channel sum from a uniform channel bound. -/
theorem weightedChannelSum_le (ings : List Ingredient) (sh : ℕ) (hi : ℕ)
    (hnn : ∀ i ∈ ings, 0 ≤ i.amount)
    (hb : ∀ i ∈ ings, hexChannel i.color sh ≤ hi) :
    weightedChannelSum ings sh ≤ (hi : ℚ) / 255 * totalAmount ings := by
  induction ings with
  | nil => simp [weightedChannelSum, totalAmount]
  | cons i rest ih =>
      have hih := ih (fun j hj => hnn j (List.mem_cons_of_mem i hj))
        (fun j hj => hb j (List.mem_cons_of_mem i hj))
      have hia := hnn i (List.mem_cons_self i rest)
      have hchan : ((hexChannel i.color sh : ℚ)) ≤ (hi : ℚ) := by
        exact_mod_cast hb i (List.mem_cons_self i rest)
      have hhead : (hexChannel i.color sh : ℚ) / 255 * i.amount
          ≤ (hi : ℚ) / 255 * i.amount :=
        mul_le_mul_of_nonneg_right
          ((div_le_div_iff_of_pos_right (by norm_num)).mpr hchan) hia
      simp only [weightedChannelSum, totalAmount, List.map_cons, List.sum_cons]
        at hih hhead ⊢
      linarith

/-- Lower bound on the weighted channel sum from a uniform channel bound. -/
theorem le_weightedChannelSum (ings : List Ingredient) (sh : ℕ) (lo : ℕ)
    (hnn : ∀ i ∈ ings, 0 ≤ i.amount)
    (hb : ∀ i ∈ ings, lo ≤ hexChannel i.color sh) :
    (lo : ℚ) / 255 * totalAmount ings ≤ weightedChannelSum ings sh := by
  induction ings with
  | nil => simp [weightedChannelSum, totalAmount]
  | cons i rest ih =>
      have hih := ih (fun j hj => hnn j (List.mem_cons_of_mem i hj))
        (fun j hj => hb j (List.mem_cons_of_mem i hj))
      have hia := hnn i (List.mem_cons_self i rest)
      have hchan : ((lo : ℚ)) ≤ (hexChannel i.color sh : ℚ) := by
        exact_mod_cast hb i (List.mem_cons_self i rest)
      have hhead : (lo : ℚ) / 255 * i.amount
          ≤ (hexChannel i.color sh : ℚ) / 255 * i.amount :=
        mul_le_mul_of_nonneg_right
          ((div_le_div_iff_of_pos_right (by norm_num)).mpr hchan) hia
      simp only [weightedChannelSum, totalAmount, List.map_cons, List.sum_cons]
        at hih hhead ⊢
      linarith

/-- A rounded blended channel stays between any integer bounds that bound all
constituent channels, given nonnegative amounts and positive total. -/
theorem mixChannel_bounds (ings : List Ingredient) (sh : ℕ) (lo hi : ℕ)
    (hnn : ∀ i ∈ ings, 0 ≤ i.amount) (hpos : 0 < totalAmount ings)
    (hb : ∀ i ∈ ings, lo ≤ hexChannel i.color sh ∧ hexChannel i.color sh ≤ hi) :
    (lo : ℤ) ≤ mixChannel ings sh ∧ mixChannel ings sh ≤ (hi : ℤ) := by
  have hup := weightedChannelSum_le ings sh hi hnn (fun i h => (hb i h).2)
  have hlo := le_weightedChannelSum ings sh lo hnn (fun i h => (hb i h).1)
  have hlo' : (lo : ℚ) ≤ weightedChannelSum ings sh / totalAmount ings * 255 := by
    rw [div_mul_eq_mul_div, le_div_iff₀ hpos]
    have e : (lo : ℚ) / 255 * totalAmount ings * 255 = lo * totalAmount ings := by
      ring
    have h2 := mul_le_mul_of_nonneg_right hlo (by norm_num : (0:ℚ) ≤ 255)
    linarith [e ▸ h2]
  have hup' : weightedChannelSum ings sh / totalAmount ings * 255 ≤ (hi : ℚ) := by
    rw [div_mul_eq_mul_div, div_le_iff₀ hpos]
    have e : (hi : ℚ) / 255 * totalAmount ings * 255 = hi * totalAmount ings := by
      ring
    have h2 := mul_le_mul_of_nonneg_right hup (by norm_num : (0:ℚ) ≤ 255)
    linarith [e ▸ h2]
  constructor
  · have h1 : jsRound ((lo : ℤ) : ℚ) ≤ mixChannel ings sh := by
      unfold mixChannel
      exact jsRound_le_jsRound _ _ (by push_cast; linarith)
    rw [jsRound_intCast] at h1
    exact h1
  · have h1 : mixChannel ings sh ≤ jsRound ((hi : ℤ) : ℚ) := by
      unfold mixChannel
      exact jsRound_le_jsRound _ _ (by push_cast; linarith)
    rw [jsRound_intCast] at h1
    exact h1

/-- Red channel of a packed `0xRRGGBB` value. -/
theorem hexChannel_pack16 (r g b : ℕ) (hr : r < 256) (hg : g < 256)
    (hb : b < 256) : hexChannel (r * 65536 + g * 256 + b) 16 = r := by
  simp only [hexChannel]
  have e : (2:ℕ) ^ 16 = 65536 := by norm_num
  rw [e]; omega

/-- Green channel of a packed `0xRRGGBB` value. -/
theorem hexChannel_pack8 (r g b : ℕ) (hr : r < 256) (hg : g < 256)
    (hb : b < 256) : hexChannel (r * 65536 + g * 256 + b) 8 = g := by
  simp only [hexChannel]
  have e : (2:ℕ) ^ 8 = 256 := by norm_num
  rw [e]; omega

/-- Blue channel of a packed `0xRRGGBB` value. -/
theorem hexChannel_pack0 (r g b : ℕ) (hr : r < 256) (hg : g < 256)
    (hb : b < 256) : hexChannel (r * 65536 + g * 256 + b) 0 = b := by
  simp only [hexChannel]
  have e : (2:ℕ) ^ 0 = 1 := by norm_num
  rw [e]; omega

/-! ### Claim theorems -/

/-- C1 counterexample: a vessel at 290/300 receiving one `pour` tick worth
50 ml of vodka (`pourRate · deltaTime = 30 · 5/3 = 50`) ends at volume 340,
not at the claimed clamped 300, and so exceeds its capacity. -/
theorem C1_overfill_counterexample :
    vodkaGlass290.volume = 290 ∧ vodkaGlass290.maxVolume = 300 ∧
    pourRate * (5/3) = 50 ∧
    (pour vodkaGlass290 ⟨false, 0⟩ "vodka" (5/3) none).1.volume = 340 ∧
    ((340:ℚ) ≠ 300 ∧ (300:ℚ) < 340) := by
  refine ⟨rfl, rfl, by norm_num [pourRate], ?_, by norm_num, by norm_num⟩
  have hdb : liquorDatabase "vodka"
      = some ⟨"伏特加", "Vodka", 0xf0f0f0, 40, .baseSpirit⟩ := rfl
  rw [pour, if_neg (by norm_num [vodkaGlass290]), if_neg (by simp [aimRejected]), hdb]
  simp only [updateMixedColor_volume]
  norm_num [vodkaGlass290, pourRate]

/-- C1 amended: `pour` refuses only a vessel already at or above capacity;
once the fullness and aim gates pass and the liquor is in the catalog, the
full `pourRate · deltaTime` is added with no clamping, so the stored volume
can exceed `maxVolume` within one tick. -/
theorem C1_pour_unclamped (target : ContainerContents) (ps : PourState)
    (liquorType : String) (deltaTime : ℚ) (aim : Option AimContext) :
    (target.maxVolume ≤ target.volume →
      pour target ps liquorType deltaTime aim = (target, ps)) ∧
    (¬ target.maxVolume ≤ target.volume → aimRejected aim = false →
      ∀ liquor, liquorDatabase liquorType = some liquor →
        (pour target ps liquorType deltaTime aim).1.volume
          = target.volume + pourRate * deltaTime) := by
  constructor
  · intro h; rw [pour, if_pos h]
  · intro h1 h2 liquor h3
    rw [pour, if_neg h1, if_neg (by simp [h2]), h3]
    simp only [updateMixedColor_volume]

/-- Witness for `C1_pour_unclamped` at the 290/300 vodka vessel. -/
theorem C1_pour_unclamped_witness :
    ¬ vodkaGlass290.maxVolume ≤ vodkaGlass290.volume ∧
    (pour vodkaGlass290 ⟨false, 0⟩ "vodka" (5/3) none).1.volume
      = vodkaGlass290.volume + pourRate * (5/3) :=
  ⟨by norm_num [vodkaGlass290],
   (C1_pour_unclamped vodkaGlass290 ⟨false, 0⟩ "vodka" (5/3) none).2
     (by norm_num [vodkaGlass290]) rfl _ rfl⟩

/-- C2: vessel-to-vessel transfer. (1) The summed volume of source and target
is conserved by every tick. (2) With a non-empty source and non-full target,
the moved amount is exactly `min(pourRate·Δt, sourceVolume, remaining
capacity)`. (3) Reference scenario: a 500/500 shaker with A=300, B=200 poured
into an empty 300 ml glass for a nominal 400 ml tick transfers exactly 300,
leaving the shaker at 200 with A=120 and B=80. (4) The draw is proportional
for every tick: each source entry is reduced by exactly its own amount times
the transferred fraction (small residues then pruned), and the target
receives exactly those per-ingredient shares, coalesced by type. -/
theorem C2_shaker_transfer :
    (∀ (s t : ContainerContents) (dt : ℚ),
      (pourFromShaker s t dt).1.volume + (pourFromShaker s t dt).2.volume
        = s.volume + t.volume) ∧
    (∀ (s t : ContainerContents) (dt : ℚ), 0 < s.volume → t.volume < t.maxVolume →
      (pourFromShaker s t dt).2.volume = t.volume
          + min (min (pourRate * dt) s.volume) (t.maxVolume - t.volume) ∧
      (pourFromShaker s t dt).1.volume = s.volume
          - min (min (pourRate * dt) s.volume) (t.maxVolume - t.volume)) ∧
    ((pourFromShaker shakerAB glass300 (40/3)).1.ingredients.map (·.amount)
        = [120, 80] ∧
     (pourFromShaker shakerAB glass300 (40/3)).1.volume = 200 ∧
     (pourFromShaker shakerAB glass300 (40/3)).2.ingredients.map (·.amount)
        = [180, 120] ∧
     (pourFromShaker shakerAB glass300 (40/3)).2.volume = 300) ∧
    (∀ (s t : ContainerContents) (dt : ℚ), 0 < s.volume → t.volume < t.maxVolume →
      (pourFromShaker s t dt).1.ingredients
        = (s.ingredients.map (fun ing =>
            { ing with amount := ing.amount - ing.amount *
                (min (min (pourRate * dt) s.volume) (t.maxVolume - t.volume)
                  / s.volume) })).filter
            (fun ing => 1/100 < ing.amount) ∧
      (pourFromShaker s t dt).2.ingredients
        = s.ingredients.foldl (fun acc ing => addAmount acc
            { ing with amount := ing.amount *
                (min (min (pourRate * dt) s.volume) (t.maxVolume - t.volume)
                  / s.volume) })
            t.ingredients) := by
  refine ⟨?_, ?_, ?_, ?_⟩
  · intro s t dt
    rw [pourFromShaker]
    split_ifs <;> simp only [updateMixedColor_volume] <;> ring
  · intro s t dt h1 h2
    rw [pourFromShaker, if_neg (by linarith), if_neg (by linarith)]
    exact ⟨by simp only [updateMixedColor_volume], by simp only [updateMixedColor_volume]⟩
  · refine ⟨?_, ?_, ?_, ?_⟩ <;>
      rw [pourFromShaker, if_neg (by norm_num [shakerAB]),
        if_neg (by norm_num [glass300, shakerAB])] <;>
      simp only [updateMixedColor_ingredients, updateMixedColor_volume] <;>
      norm_num [shakerAB, glass300, pourRate, min_def, addAmount, List.filter]
    rw [if_neg (by decide)]
    norm_num
  · intro s t dt h1 h2
    rw [pourFromShaker, if_neg (by linarith), if_neg (by linarith)]
    exact ⟨by simp only [updateMixedColor_ingredients],
      by simp only [updateMixedColor_ingredients]⟩

/-- Witness for `C2_shaker_transfer` at the reference shaker scenario. -/
theorem C2_shaker_transfer_witness :
    0 < shakerAB.volume ∧ glass300.volume < glass300.maxVolume ∧
    (pourFromShaker shakerAB glass300 (40/3)).2.volume = glass300.volume
      + min (min (pourRate * (40/3)) shakerAB.volume)
          (glass300.maxVolume - glass300.volume) :=
  ⟨by norm_num [shakerAB], by norm_num [glass300],
   (C2_shaker_transfer.2.1 shakerAB glass300 (40/3)
     (by norm_num [shakerAB]) (by norm_num [glass300])).1⟩

/-- C8 counterexample: at dot product exactly 0.85 (which does not *exceed*
the 0.85 threshold) and distance 1 ≤ 1.5, the pour is not a no-op: an empty
300 ml glass gains 30 ml in a 1-second vodka tick. -/
theorem C8_dot_boundary_counterexample :
    ¬ ((17:ℚ)/20 > 17/20) ∧ (1:ℚ) ≤ 3/2 ∧ glass300.volume = 0 ∧
    (pour glass300 ⟨false, 0⟩ "vodka" 1 (some ⟨1, 17/20⟩)).1.volume = 30 := by
  refine ⟨by norm_num, by norm_num, rfl, ?_⟩
  have hdb : liquorDatabase "vodka"
      = some ⟨"伏特加", "Vodka", 0xf0f0f0, 40, .baseSpirit⟩ := rfl
  rw [pour, if_neg (by norm_num [glass300]), if_neg (by norm_num [aimRejected]), hdb]
  simp only [updateMixedColor_volume]
  norm_num [glass300, pourRate]

/-- C8 amended: with an aiming context supplied, a tick is a silent no-op
(container and session both unchanged) whenever distance strictly exceeds 1.5
or the dot product is strictly below 0.85; at dot exactly 0.85 the pour
proceeds. -/
theorem C8_aim_rejection_amended (target : ContainerContents) (ps : PourState)
    (liquorType : String) (deltaTime : ℚ) (d dot : ℚ)
    (h : 3/2 < d ∨ dot < 17/20) :
    pour target ps liquorType deltaTime (some ⟨d, dot⟩) = (target, ps) := by
  have ha : aimRejected (some ⟨d, dot⟩) = true := by
    rcases h with h | h <;> simp [aimRejected, h]
  rw [pour]
  split_ifs <;> simp_all

/-- Witness for `C8_aim_rejection_amended` at distance 2 > 1.5. -/
theorem C8_aim_rejection_amended_witness :
    ((3:ℚ)/2 < 2 ∨ (1:ℚ) < 17/20) ∧
    pour glass300 ⟨false, 0⟩ "vodka" 1 (some ⟨2, 1⟩) = (glass300, ⟨false, 0⟩) :=
  ⟨Or.inl (by norm_num),
   C8_aim_rejection_amended glass300 ⟨false, 0⟩ "vodka" 1 2 1 (Or.inl (by norm_num))⟩

/-- C10: pouring an ingredient identifier absent from the liquor catalog is a
complete silent no-op — the destination and the pour-session state are both
returned unchanged, whatever the tick length and aiming context. -/
theorem C10_unknown_liquor_noop (target : ContainerContents) (ps : PourState)
    (liquorType : String) (deltaTime : ℚ) (aim : Option AimContext)
    (h : liquorDatabase liquorType = none) :
    pour target ps liquorType deltaTime aim = (target, ps) := by
  rw [pour]
  split_ifs <;> simp [h]

/-- Witness for `C10_unknown_liquor_noop` at the uncataloged id "water". -/
theorem C10_unknown_liquor_noop_witness :
    liquorDatabase "water" = none ∧
    pour glass300 ⟨false, 0⟩ "water" 1 none = (glass300, ⟨false, 0⟩) :=
  ⟨rfl, C10_unknown_liquor_noop glass300 ⟨false, 0⟩ "water" 1 none rfl⟩

/-- C3 counterexample: a 10 ml single-ingredient shaker transferring 9.99 ml
(one `pourFromShaker` tick of 0.333 s at 30 ml/s) is left with stored volume
0.01 but an empty ingredient list — the 0.01 ml residue is pruned without
adjusting the volume, so `volume` drifts from the ingredient-amount sum. -/
theorem C3_prune_drift_counterexample :
    (pourFromShaker shakerTiny glassBig (333/1000)).1.volume = 1/100 ∧
    totalAmount (pourFromShaker shakerTiny glassBig (333/1000)).1.ingredients = 0 ∧
    ((1:ℚ)/100 ≠ 0) := by
  refine ⟨?_, ?_, by norm_num⟩ <;>
    rw [pourFromShaker, if_neg (by norm_num [shakerTiny]),
      if_neg (by norm_num [glassBig, shakerTiny])] <;>
    simp only [updateMixedColor_volume, updateMixedColor_ingredients] <;>
    norm_num [shakerTiny, glassBig, pourRate, min_def, totalAmount, List.filter]

/-- C3 amended: the volume/ingredient-sum equality is preserved exactly by
`pour`, `emptyContainer`, both paths of `drink`, the per-frame drinking
update, and by the *destination* of `pourFromShaker`; for the transfer
*source*, pruning of residues ≤ 0.01 can only leave the stored volume at or
above the ingredient-amount sum (strictly above when a pruned residue was
positive, as the counterexample shows). -/
theorem C3_volume_sum_amended :
    (∀ (target : ContainerContents) (ps : PourState) (lt : String) (dt : ℚ)
        (aim : Option AimContext), volOk target → volOk (pour target ps lt dt aim).1) ∧
    (∀ c : ContainerContents, volOk (emptyContainer c)) ∧
    (∀ (c : ContainerContents) (ds : DrinkState) (now : ℚ) (b : Bool),
        volOk c → volOk (drink c ds now b).1) ∧
    (∀ (c : ContainerContents) (ds : DrinkState) (now : ℚ),
        volOk c → volOk (updateDrinkingAnimation c ds now).1) ∧
    (∀ (s t : ContainerContents) (dt : ℚ),
        volOk s → volOk t → volOk (pourFromShaker s t dt).2) ∧
    (∀ (s t : ContainerContents) (dt : ℚ),
        volOk s → (∀ i ∈ s.ingredients, 0 ≤ i.amount) →
        totalAmount (pourFromShaker s t dt).1.ingredients
          ≤ (pourFromShaker s t dt).1.volume) := by
  refine ⟨?_, ?_, ?_, ?_, ?_, ?_⟩
  · intro target ps lt dt aim h
    rw [pour]
    split_ifs with h1 h2
    · exact h
    · exact h
    · cases hdb : liquorDatabase lt with
      | none => simp only [hdb]; exact h
      | some liquor =>
          simp only [hdb]
          unfold volOk at *
          rw [updateMixedColor_volume, updateMixedColor_ingredients]
          simp only [totalAmount_addAmount, h]
  · intro c
    simp [volOk, emptyContainer, totalAmount]
  · intro c ds now b h
    rw [drink]
    split_ifs
    · exact h
    · exact h
    · simp [volOk, totalAmount]
  · intro c ds now h
    simp only [updateDrinkingAnimation]
    split_ifs
    · exact h
    · exact h
    · simp [volOk, totalAmount]
    · exact h
  · intro s t dt hs ht
    rw [pourFromShaker]
    split_ifs with h1 h2
    · exact ht
    · exact ht
    · unfold volOk at *
      rw [updateMixedColor_volume, updateMixedColor_ingredients]
      simp only [totalAmount_foldl_transfer]
      rw [← ht, ← hs]
      have hsn : s.volume ≠ 0 := by
        push_neg at h1; exact ne_of_gt h1
      field_simp
  · intro s t dt hs hnn
    rw [pourFromShaker]
    split_ifs with h1 h2
    · rw [hs]
    · rw [hs]
    · push_neg at h1
      have hsn : s.volume ≠ 0 := ne_of_gt h1
      rw [updateMixedColor_volume, updateMixedColor_ingredients]
      set amt := min (min (pourRate * dt) s.volume) (t.maxVolume - t.volume)
        with hamt
      have hle : amt ≤ s.volume :=
        le_trans (min_le_left _ _) (min_le_right _ _)
      have hratio : amt / s.volume ≤ 1 := by
        rw [div_le_one h1]; exact hle
      have hmnn : ∀ j ∈ s.ingredients.map
          (fun ing => { ing with
            amount := ing.amount - ing.amount * (amt / s.volume) }),
          0 ≤ j.amount := by
        intro j hj
        obtain ⟨i, hi, rfl⟩ := List.mem_map.mp hj
        have e : i.amount - i.amount * (amt / s.volume)
            = i.amount * (1 - amt / s.volume) := by ring
        rw [e]
        exact mul_nonneg (hnn i hi) (by linarith)
      have h3 := totalAmount_filter_le _ (fun ing => 1/100 < ing.amount) hmnn
      have h4 := totalAmount_map_scale s.ingredients (amt / s.volume)
      rw [h4] at h3
      rw [← hs] at h3
      have h5 : s.volume * (amt / s.volume) = amt := by field_simp
      refine le_trans h3 ?_
      rw [h5]

/-- Witness for `C3_volume_sum_amended` at the reference shaker transfer. -/
theorem C3_volume_sum_amended_witness :
    volOk shakerAB ∧ volOk glass300 ∧
    volOk (pourFromShaker shakerAB glass300 (40/3)).2 :=
  ⟨by norm_num [volOk, totalAmount, shakerAB],
   by norm_num [volOk, totalAmount, glass300],
   C3_volume_sum_amended.2.2.2.2.1 shakerAB glass300 (40/3)
     (by norm_num [volOk, totalAmount, shakerAB])
     (by norm_num [volOk, totalAmount, glass300])⟩

/-- C4: a glass with exactly gin = 60 and dry vermouth = 20 identifies as the
Martini pattern; over a pure gin/vermouth glass the Martini name is returned
exactly when the gin-to-vermouth ratio lies in the closed band [2, 3]
(boundary 3 included), and at ratio 3.01 (gin = 60.2) the Martini name is not
returned. -/
theorem C4_martini_ratio_band :
    identifyCocktail (ginVermouthGlass 60 20) = "馬丁尼 (Martini)" ∧
    (∀ g v : ℚ, identifyCocktail (ginVermouthGlass g v) = "馬丁尼 (Martini)"
      ↔ (2 ≤ g / v ∧ g / v ≤ 3)) ∧
    identifyCocktail (ginVermouthGlass (301/5) 20) ≠ "馬丁尼 (Martini)" := by
  refine ⟨?_, ?_, ?_⟩
  · simp [identifyCocktail, martiniMatch, ginVermouthGlass, getAmount,
      String.reduceEq, List.find?]
    norm_num
  · intro g v
    by_cases h : 2 ≤ g / v ∧ g / v ≤ 3
    · simp [identifyCocktail, martiniMatch, ginVermouthGlass, getAmount,
        h.1, h.2, String.reduceEq, List.find?]
    · rcases not_and_or.mp h with h' | h' <;>
        simp [identifyCocktail, martiniMatch, vodkaMartiniMatch, negroniMatch,
          ginVermouthGlass, getAmount, h', String.reduceEq, List.find?]
  · simp [identifyCocktail, martiniMatch, vodkaMartiniMatch, negroniMatch,
      ginVermouthGlass, getAmount, String.reduceEq, List.find?]
    norm_num

/-- Witness for `C4_martini_ratio_band` at the boundary ratio 3. -/
theorem C4_martini_ratio_band_witness :
    ((2:ℚ) ≤ 60 / 20 ∧ (60:ℚ) / 20 ≤ 3) ∧
    identifyCocktail (ginVermouthGlass 60 20) = "馬丁尼 (Martini)" :=
  ⟨⟨by norm_num, by norm_num⟩,
   (C4_martini_ratio_band.2.1 60 20).mpr ⟨by norm_num, by norm_num⟩⟩

/-- C5 counterexample: a container holding exactly one ingredient (50 ml of
rum) is classified as the unknown-drink result "未知飲品" — the same result
as an empty container — not as a rum "neat" drink; only vodka and gin have
neat classifications. -/
theorem C5_rum_neat_counterexample :
    rumOnlyGlass.ingredients.length = 1 ∧
    identifyCocktail rumOnlyGlass = "未知飲品" ∧
    identifyCocktail glass300 = "未知飲品" := by
  refine ⟨rfl, ?_, ?_⟩ <;>
    simp [identifyCocktail, martiniMatch, vodkaMartiniMatch, negroniMatch,
      rumOnlyGlass, glass300, String.reduceEq]

/-- C5 amended: the generic fallback classifies a single-ingredient container
as "<ingredient> neat" only for vodka and gin; every other single ingredient
falls through to the unknown-drink result "未知飲品", which is also the
zero-ingredient result. For every content of at least two ingredients on
which no named rule fires (no classic-recipe guard and neither named
two-ingredient combo 熱帶雞尾酒/性感海灘), the count fallback applies:
more than two ingredient entries give the custom-mix name 特調混酒 and
exactly two give the two-ingredient-mix name 雙料調酒 — instantiated at the
whiskey+cola and three-mixer fixtures. -/
theorem C5_fallback_amended :
    (∀ (ing : Ingredient) (v mv : ℚ) (col : ℕ),
      identifyCocktail ⟨[ing], v, mv, col⟩ =
        (if ing.type = "vodka" then "伏特加純飲"
         else if ing.type = "gin" then "琴酒純飲"
         else "未知飲品")) ∧
    (∀ (v mv : ℚ) (col : ℕ), identifyCocktail ⟨[], v, mv, col⟩ = "未知飲品") ∧
    (∀ c : ContainerContents,
      namedRuleMatch c.ingredients (c.ingredients.map (·.type)) = false →
      2 ≤ (c.ingredients.map (·.type)).length →
      identifyCocktail c =
        (if 2 < (c.ingredients.map (·.type)).length then "特調混酒"
         else "雙料調酒")) ∧
    identifyCocktail whiskeyColaGlass = "雙料調酒" ∧
    identifyCocktail mixerTrioGlass = "特調混酒" := by
  refine ⟨?_, ?_, ?_, ?_, ?_⟩
  · intro ing v mv col
    by_cases h1 : ing.type = "vodka"
    · simp [identifyCocktail, martiniMatch, vodkaMartiniMatch, negroniMatch,
        h1, String.reduceEq, pairEqFalse]
    · by_cases h2 : ing.type = "gin"
      · simp [identifyCocktail, martiniMatch, vodkaMartiniMatch, negroniMatch,
          h2, h1, String.reduceEq, pairEqFalse]
      · simp [identifyCocktail, martiniMatch, vodkaMartiniMatch, negroniMatch,
          h1, h2, Ne.symm h1, Ne.symm h2, String.reduceEq, pairEqFalse]
  · intro v mv col; rfl
  · intro c h hlen
    simp only [namedRuleMatch, Bool.or_eq_false_iff] at h
    obtain ⟨⟨⟨⟨⟨⟨⟨⟨⟨⟨⟨⟨⟨⟨⟨⟨h1, h2⟩, h3⟩, h4⟩, h5⟩, h6⟩, h7⟩, h8⟩, h9⟩,
      h10⟩, h11⟩, h12⟩, h13⟩, h14⟩, h15⟩, h16⟩, h17⟩ := h
    have hl1 : ((c.ingredients.map (·.type)).length == 1) = false := by
      simp only [beq_eq_false_iff_ne]; omega
    simp only [identifyCocktail]
    rw [if_neg (by rw [h1]; exact Bool.false_ne_true),
      if_neg (by rw [h2]; exact Bool.false_ne_true),
      if_neg (by rw [h3]; exact Bool.false_ne_true),
      if_neg (by rw [h4]; exact Bool.false_ne_true),
      if_neg (by rw [h5]; exact Bool.false_ne_true),
      if_neg (by rw [h6]; exact Bool.false_ne_true),
      if_neg (by rw [h7]; exact Bool.false_ne_true),
      if_neg (by rw [h8]; exact Bool.false_ne_true),
      if_neg (by rw [h9]; exact Bool.false_ne_true),
      if_neg (by rw [h10]; exact Bool.false_ne_true),
      if_neg (by rw [h11]; exact Bool.false_ne_true),
      if_neg (by rw [h12]; exact Bool.false_ne_true),
      if_neg (by rw [h13]; exact Bool.false_ne_true),
      if_neg (by rw [h14]; exact Bool.false_ne_true),
      if_neg (by rw [h15]; exact Bool.false_ne_true),
      if_neg (by rw [hl1, Bool.and_false]; exact Bool.false_ne_true),
      if_neg (by rw [hl1, Bool.and_false]; exact Bool.false_ne_true),
      if_neg (by rw [h16]; exact Bool.false_ne_true),
      if_neg (by rw [h17]; exact Bool.false_ne_true)]
    by_cases hlt : 2 < (c.ingredients.map (·.type)).length
    · rw [if_pos hlt, if_pos hlt]
    · rw [if_neg hlt, if_neg hlt, if_pos (by simp only [beq_iff_eq]; omega)]
  · simp [identifyCocktail, martiniMatch, vodkaMartiniMatch, negroniMatch,
      whiskeyColaGlass, String.reduceEq]
  · simp [identifyCocktail, martiniMatch, vodkaMartiniMatch, negroniMatch,
      mixerTrioGlass, String.reduceEq]

/-- Witness for `C5_fallback_amended` at a whiskey-only container. -/
theorem C5_fallback_amended_witness :
    identifyCocktail ⟨[⟨"whiskey", "威士忌", "Whiskey", 40, 0xb87333⟩],
      40, 300, 0xb87333⟩ = "未知飲品" := by
  have h := C5_fallback_amended.1 ⟨"whiskey", "威士忌", "Whiskey", 40, 0xb87333⟩
    40 300 0xb87333
  simpa using h

/-- C6 counterexample: the six-ingredient mix (five LIIT spirits + lime
juice) satisfies both the Long Island Iced Tea ingredient pattern and the
Mai Tai ingredient pattern, yet identification returns the earlier, looser
Margarita rule's name — not the stricter five-spirit LIIT name. -/
theorem C6_liit_maitai_counterexample :
    (["vodka", "rum", "gin", "tequila", "triple_sec"].all
      (fun t => (sixSpiritMix.ingredients.map (·.type)).contains t) = true) ∧
    (["rum", "triple_sec", "lime_juice"].all
      (fun t => (sixSpiritMix.ingredients.map (·.type)).contains t) = true) ∧
    identifyCocktail sixSpiritMix = "瑪格麗特 (Margarita)" ∧
    "瑪格麗特 (Margarita)" ≠ "長島冰茶 (Long Island Iced Tea)" := by
  refine ⟨rfl, rfl, ?_, by decide⟩
  simp [identifyCocktail, martiniMatch, vodkaMartiniMatch, negroniMatch,
    sixSpiritMix, String.reduceEq]

/-- C6 amended: rules are evaluated in fixed source order, which is not
most-constrained-first: any content matching both the Long Island Iced Tea
pattern and the Mai Tai pattern necessarily also matches the earlier
three-ingredient Margarita rule, so identification stops at one of the first
four rules and never returns the LIIT name for such content. -/
theorem C6_rule_order_amended (c : ContainerContents)
    (_h1 : (c.ingredients.map (·.type)).contains "vodka" = true)
    (_h2 : (c.ingredients.map (·.type)).contains "rum" = true)
    (_h3 : (c.ingredients.map (·.type)).contains "gin" = true)
    (h4 : (c.ingredients.map (·.type)).contains "tequila" = true)
    (h5 : (c.ingredients.map (·.type)).contains "triple_sec" = true)
    (h6 : (c.ingredients.map (·.type)).contains "lime_juice" = true) :
    identifyCocktail c ∈ ["馬丁尼 (Martini)", "伏特加馬丁尼 (Vodka Martini)",
      "內格羅尼 (Negroni)", "瑪格麗特 (Margarita)"] ∧
    identifyCocktail c ≠ "長島冰茶 (Long Island Iced Tea)" := by
  have hma : ((c.ingredients.map (·.type)).contains "tequila" &&
      (c.ingredients.map (·.type)).contains "triple_sec" &&
      (c.ingredients.map (·.type)).contains "lime_juice") = true := by
    rw [h4, h5, h6]; rfl
  simp only [identifyCocktail]
  by_cases g1 : martiniMatch c.ingredients (c.ingredients.map (·.type)) = true
  · rw [if_pos g1]
    exact ⟨by simp, by decide⟩
  rw [if_neg g1]
  by_cases g2 : vodkaMartiniMatch c.ingredients (c.ingredients.map (·.type)) = true
  · rw [if_pos g2]
    exact ⟨by simp, by decide⟩
  rw [if_neg g2]
  by_cases g3 : negroniMatch c.ingredients (c.ingredients.map (·.type)) = true
  · rw [if_pos g3]
    exact ⟨by simp, by decide⟩
  rw [if_neg g3, if_pos hma]
  exact ⟨by simp, by decide⟩

/-- Witness for `C6_rule_order_amended` at the six-ingredient mix. -/
theorem C6_rule_order_amended_witness :
    identifyCocktail sixSpiritMix ∈ ["馬丁尼 (Martini)",
      "伏特加馬丁尼 (Vodka Martini)", "內格羅尼 (Negroni)",
      "瑪格麗特 (Margarita)"] ∧
    identifyCocktail sixSpiritMix ≠ "長島冰茶 (Long Island Iced Tea)" :=
  C6_rule_order_amended sixSpiritMix rfl rfl rfl rfl rfl rfl

/-- C7: the drink cycle. On a non-empty vessel with no drink in progress, the
drink request only starts the timed animation (contents untouched, `null`
returned); once the per-frame update sees 1 second elapse it empties the
vessel (ingredients cleared, volume 0, color neutral white) and stores the
single snapshot `{volume, ingredients, color, name}`; retrieving it clears
the single-slot mailbox so a second retrieval yields `null`; a drink request
on an empty vessel returns `null` with no state change. -/
theorem C7_drink_cycle (c : ContainerContents) (ds : DrinkState) (now now2 : ℚ)
    (h1 : 0 < c.volume) (h2 : ds.isDrinking = false)
    (h3 : 1 ≤ (now2 - now) / 1000) :
    (drink c ds now true = (c, ⟨true, now, ds.lastDrinkInfo⟩, none)) ∧
    (updateDrinkingAnimation c ⟨true, now, ds.lastDrinkInfo⟩ now2
       = ({ c with ingredients := [], volume := 0, color := 0xffffff },
          ⟨false, now, some ⟨c.volume, c.ingredients, c.color, identifyCocktail c⟩⟩)) ∧
    (getLastDrinkInfo ⟨false, now,
        some ⟨c.volume, c.ingredients, c.color, identifyCocktail c⟩⟩
       = (some ⟨c.volume, c.ingredients, c.color, identifyCocktail c⟩,
          ⟨false, now, none⟩)) ∧
    ((getLastDrinkInfo ⟨false, now, none⟩).1 = none) ∧
    (∀ (c0 : ContainerContents) (ds0 : DrinkState) (n0 : ℚ) (b0 : Bool),
       c0.volume = 0 → drink c0 ds0 n0 b0 = (c0, ds0, none)) := by
  refine ⟨?_, ?_, rfl, rfl, ?_⟩
  · rw [drink, if_neg (ne_of_gt h1), if_pos (by simp [h2])]
  · rw [updateDrinkingAnimation, if_neg (by simp), if_neg (by simp; linarith),
      if_pos h1]
  · intro c0 ds0 n0 b0 h0
    rw [drink, if_pos h0]

/-- Witness for `C7_drink_cycle` at the 100 ml rum glass with a 1-second
animation (start at 5000 ms, update at 6000 ms). -/
theorem C7_drink_cycle_witness :
    0 < rumGlass100.volume ∧ (1:ℚ) ≤ (6000 - 5000) / 1000 ∧
    updateDrinkingAnimation rumGlass100 ⟨true, 5000, none⟩ 6000
      = ({ rumGlass100 with ingredients := [], volume := 0, color := 0xffffff },
         ⟨false, 5000, some ⟨rumGlass100.volume, rumGlass100.ingredients,
            rumGlass100.color, identifyCocktail rumGlass100⟩⟩) :=
  ⟨by norm_num [rumGlass100], by norm_num,
   (C7_drink_cycle rumGlass100 ⟨false, 0, none⟩ 5000 6000
     (by norm_num [rumGlass100]) rfl (by norm_num)).2.1⟩

/-- C9: the blended color. Any per-channel bounds holding for every
constituent ingredient's base color also bound the corresponding channel of
the recomputed blended color (nonnegative amounts, positive total); and when
the total amount is zero the container — in particular its color — is left
unchanged. -/
theorem C9_color_bounds :
    (∀ (c : ContainerContents) (loR hiR loG hiG loB hiB : ℕ),
      c.ingredients ≠ [] → (∀ i ∈ c.ingredients, 0 ≤ i.amount) →
      0 < totalAmount c.ingredients →
      (∀ i ∈ c.ingredients, loR ≤ hexChannel i.color 16 ∧ hexChannel i.color 16 ≤ hiR) →
      (∀ i ∈ c.ingredients, loG ≤ hexChannel i.color 8 ∧ hexChannel i.color 8 ≤ hiG) →
      (∀ i ∈ c.ingredients, loB ≤ hexChannel i.color 0 ∧ hexChannel i.color 0 ≤ hiB) →
      ((loR ≤ hexChannel (updateMixedColor c).color 16 ∧
          hexChannel (updateMixedColor c).color 16 ≤ hiR) ∧
       (loG ≤ hexChannel (updateMixedColor c).color 8 ∧
          hexChannel (updateMixedColor c).color 8 ≤ hiG) ∧
       (loB ≤ hexChannel (updateMixedColor c).color 0 ∧
          hexChannel (updateMixedColor c).color 0 ≤ hiB))) ∧
    (∀ c : ContainerContents, totalAmount c.ingredients = 0 →
      updateMixedColor c = c) := by
  constructor
  · intro c loR hiR loG hiG loB hiB hne hnn hpos hbR hbG hbB
    have h255 : ∀ (sh : ℕ), ∀ i ∈ c.ingredients,
        0 ≤ hexChannel i.color sh ∧ hexChannel i.color sh ≤ 255 :=
      fun sh i hi => ⟨Nat.zero_le _, Nat.lt_succ_iff.mp (hexChannel_lt _ _)⟩
    have hR := mixChannel_bounds c.ingredients 16 loR hiR hnn hpos hbR
    have hG := mixChannel_bounds c.ingredients 8 loG hiG hnn hpos hbG
    have hB := mixChannel_bounds c.ingredients 0 loB hiB hnn hpos hbB
    have hR2 := mixChannel_bounds c.ingredients 16 0 255 hnn hpos (h255 16)
    have hG2 := mixChannel_bounds c.ingredients 8 0 255 hnn hpos (h255 8)
    have hB2 := mixChannel_bounds c.ingredients 0 0 255 hnn hpos (h255 0)
    have hcol : (updateMixedColor c).color =
        (mixChannel c.ingredients 16).toNat * 65536
          + (mixChannel c.ingredients 8).toNat * 256
          + (mixChannel c.ingredients 0).toNat := by
      rw [updateMixedColor, if_neg (by simp [hne]), if_pos hpos]
    have hrlt : (mixChannel c.ingredients 16).toNat < 256 := by omega
    have hglt : (mixChannel c.ingredients 8).toNat < 256 := by omega
    have hblt : (mixChannel c.ingredients 0).toNat < 256 := by omega
    rw [hcol, hexChannel_pack16 _ _ _ hrlt hglt hblt,
      hexChannel_pack8 _ _ _ hrlt hglt hblt, hexChannel_pack0 _ _ _ hrlt hglt hblt]
    refine ⟨⟨?_, ?_⟩, ⟨?_, ?_⟩, ⟨?_, ?_⟩⟩ <;> omega
  · intro c h
    rw [updateMixedColor]
    split_ifs with h1 h2
    · rfl
    · exact absurd h (ne_of_gt h2)
    · rfl

/-- Witness for `C9_color_bounds` at a red/blue two-ingredient mix whose
green channels are all zero: the blended green channel is exactly 0. -/
theorem C9_color_bounds_witness :
    redBlueGlass.ingredients ≠ [] ∧ 0 < totalAmount redBlueGlass.ingredients ∧
    ((0 ≤ hexChannel (updateMixedColor redBlueGlass).color 16 ∧
        hexChannel (updateMixedColor redBlueGlass).color 16 ≤ 255) ∧
     (0 ≤ hexChannel (updateMixedColor redBlueGlass).color 8 ∧
        hexChannel (updateMixedColor redBlueGlass).color 8 ≤ 0) ∧
     (0 ≤ hexChannel (updateMixedColor redBlueGlass).color 0 ∧
        hexChannel (updateMixedColor redBlueGlass).color 0 ≤ 255)) :=
  ⟨by simp [redBlueGlass], by norm_num [totalAmount, redBlueGlass],
   C9_color_bounds.1 redBlueGlass 0 255 0 0 0 255
     (by simp [redBlueGlass])
     (by intro i hi; simp [redBlueGlass] at hi
         rcases hi with h | h <;> simp [h])
     (by norm_num [totalAmount, redBlueGlass])
     (by intro i hi; simp [redBlueGlass] at hi
         rcases hi with h | h <;> simp [h, hexChannel])
     (by intro i hi; simp [redBlueGlass] at hi
         rcases hi with h | h <;> simp [h, hexChannel])
     (by intro i hi; simp [redBlueGlass] at hi
         rcases hi with h | h <;> simp [h, hexChannel])⟩

end CocktailSystem
